import Mathlib

/-!
Verification development for the Compact XML Question Validation Tool
(`xml_validation_ui.py`).

The file shallowly embeds the two algorithmic components of the tool:

* the Loader (`CompactXMLValidator.load_xml`): a one-pass traversal of a
  parsed XML document producing flat question records, and
* the ProgressStore (`save_progress` / `try_load_progress` /
  `load_question` / `next_question` / `save_current_comment` /
  `save_current_checklist`): the in-memory judgment state, the statistics
  computed at persist time, and the companion-file persistence protocol.

Modelling conventions:

* An XML element's text (`elem.text` in ElementTree) can be `None` or a
  string; the loader treats `None` and `""` uniformly (Python falsiness),
  so element text is modelled as `String` with `""` standing for both.
  Presence or absence of a *child element* is modelled with `Option`.
* `id` attributes are modelled as `String` (the document format gives every
  `Segment`/`Question`/`Choice` an `id` attribute).
* Python dicts keyed by question id are modelled as association lists
  (`List (String × α)`), which preserves insertion order exactly as Python
  dicts do; dict assignment is `assocSet`, membership/read is
  `List.lookup`.
* `round(x, 2)` is modelled over `ℚ` as `round (x * 100) / 100`; the
  claims under verification only exercise it at values where every
  rounding convention agrees.
* File writes are modelled by returning the list of snapshots
  (`ProgressData`) written during an operation, and surfaced dialogs by a
  list of `UIError` values.
-/

/-- One `{id, text}` choice entry of an emitted question record. -/
structure Choice where
  id : String
  text : String
deriving DecidableEq, Repr

/-- A `Choice` child of a `Choices` element, with its `id` attribute and
element text (`""` models a missing/empty text). -/
structure ChoiceElem where
  id : String
  text : String
deriving DecidableEq, Repr

/-- A `Question` element: `id` attribute, optional `QuestionType`,
`QuestionText`, `Choices` and `CorrectChoice` children. -/
structure QuestionElem where
  id : String
  questionType : Option String
  questionText : Option String
  choices : Option (List ChoiceElem)
  correctChoice : Option String
deriving DecidableEq, Repr

/-- A `Segment` element: `id` attribute, optional `DocumentTitle`,
`SegmentTitle`, `SegmentText` children and an optional `QA` child holding
the question elements. -/
structure SegmentElem where
  id : String
  documentTitle : Option String
  segmentTitle : Option String
  segmentText : Option String
  qa : Option (List QuestionElem)
deriving DecidableEq, Repr

/-- A successfully parsed source document: the `Segment` children of the
root, in document order. -/
structure XMLDoc where
  segments : List SegmentElem
deriving DecidableEq, Repr

/-- The flat record appended to `self.segments` for each surviving
question in `load_xml` (lines 254-264 of `xml_validation_ui.py`). -/
structure QuestionRecord where
  segment_id : String
  document_title : String
  segment_title : String
  segment_text : String
  question_id : String
  question_type : String
  question_text : String
  choices : List Choice
  correct_choice : String
deriving DecidableEq, Repr

/-- The body of the inner `for question_elem in qa_elem.findall("Question")`
loop of `load_xml` (lines 233-264): `none` models `continue`.  The record
fields inherited from the enclosing segment are passed in. -/
def extractQuestion (seg_id doc_title seg_title seg_text : String)
    (q : QuestionElem) : Option QuestionRecord :=
  match q.questionText with
  | none => none
  | some qt =>
    if qt = "" then none
    else
      match q.choices with
      | none => none
      | some ces =>
        some
          { segment_id := seg_id
            document_title := doc_title
            segment_title := seg_title
            segment_text := seg_text
            question_id := q.id
            question_type := q.questionType.getD ""
            question_text := qt
            choices :=
              (ces.filter (fun ce => ce.text != "")).map
                (fun ce => { id := ce.id, text := ce.text })
            correct_choice := q.correctChoice.getD "" }

/-- The body of the outer `for segment in root.findall("Segment")` loop of
`load_xml` (lines 217-264): the records contributed by one segment. -/
def loadSegment (seg : SegmentElem) : List QuestionRecord :=
  match seg.segmentText with
  | none => []
  | some st =>
    if st = "" then []
    else
      match seg.qa with
      | none => []
      | some qs =>
        qs.filterMap
          (extractQuestion seg.id (seg.documentTitle.getD "Unknown")
            (seg.segmentTitle.getD "") st)

/-- The extraction pass of `CompactXMLValidator.load_xml` (lines 217-264):
the record list built from a successfully parsed document. -/
def load_xml (doc : XMLDoc) : List QuestionRecord :=
  doc.segments.flatMap loadSegment

/-- The six fixed checklist criteria (keys of `self.checklist_vars`). -/
inductive Criterion where
  | single_sentence
  | multiple_sentences
  | low_quality_distractors
  | unsuitable_paragraph
  | unclear_answer
  | outside_knowledge
deriving DecidableEq, Repr

/-- One checklist judgment: the `{criterion: bool}` dict stored per
question id in `self.checklist`. -/
structure ChecklistEntry where
  single_sentence : Bool
  multiple_sentences : Bool
  low_quality_distractors : Bool
  unsuitable_paragraph : Bool
  unclear_answer : Bool
  outside_knowledge : Bool
deriving DecidableEq, Repr

/-- Read one criterion flag out of a checklist entry
(`self.checklist[qid][criterion]`). -/
def ChecklistEntry.get (e : ChecklistEntry) : Criterion → Bool
  | .single_sentence => e.single_sentence
  | .multiple_sentences => e.multiple_sentences
  | .low_quality_distractors => e.low_quality_distractors
  | .unsuitable_paragraph => e.unsuitable_paragraph
  | .unclear_answer => e.unclear_answer
  | .outside_knowledge => e.outside_knowledge

/-- `any(self.checklist[qid].values())`: at least one criterion is true. -/
def anyChecked (e : ChecklistEntry) : Bool :=
  e.single_sentence || e.multiple_sentences || e.low_quality_distractors ||
    e.unsuitable_paragraph || e.unclear_answer || e.outside_knowledge

/-- The `self.checklist` map: question id to checklist entry, as an
insertion-ordered association list (Python dict). -/
def Checklist := List (String × ChecklistEntry)
deriving DecidableEq

/-- The `self.comments` map: question id to comment string. -/
def Comments := List (String × String)
deriving DecidableEq

/-- Python dict assignment `m[k] = v`: overwrite in place when the key is
present (keeping its position), append otherwise. -/
def assocSet {α : Type} (k : String) (v : α) :
    List (String × α) → List (String × α)
  | [] => [(k, v)]
  | (k2, v2) :: rest =>
    if k2 = k then (k2, v) :: rest else (k2, v2) :: assocSet k v rest

/-- The whole in-session application state relevant to the claims:
`self.segments`, `self.current_index`, `self.checklist`, `self.comments`
and (presence of) `self.xml_file_path`. -/
structure AppState where
  segments : List QuestionRecord
  current_index : Nat
  checklist : Checklist
  comments : Comments
  xml_file_path : Option String
deriving DecidableEq

/-- `round(x, 2)` on exact rationals. -/
def round2 (q : ℚ) : ℚ := (round (q * 100) : ℚ) / 100

/-- `round(x, 1)` on exact rationals. -/
def round1 (q : ℚ) : ℚ := (round (q * 10) : ℚ) / 10

/-- One step of the counts loop of `save_progress` (lines 422-426): for a
question id found in the checklist, bump the count of every criterion its
entry marks true (`for criterion, checked in ...items(): if checked:
counts[criterion] += 1`). -/
def updateCounts (acc : Criterion → Nat) (e : ChecklistEntry) :
    Criterion → Nat :=
  fun c => if e.get c then acc c + 1 else acc c

/-- The per-criterion counts computed by `save_progress` (lines 414-426):
iterate over the document's question ids; ids present in `self.checklist`
contribute their true criteria. -/
def computeCounts (cl : Checklist) (qids : List String) : Criterion → Nat :=
  qids.foldl
    (fun acc qid =>
      match List.lookup qid cl with
      | some e => updateCounts acc e
      | none => acc)
    (fun _ => 0)

/-- `checked_questions` (lines 410-411): the number of document question
ids present in `self.checklist` whose entry has at least one criterion
true. -/
def checkedCount (cl : Checklist) (qids : List String) : Nat :=
  qids.countP
    (fun qid =>
      match List.lookup qid cl with
      | some e => anyChecked e
      | none => false)

/-- The `metadata` object serialized by `save_progress`
(lines 433-441). -/
structure Metadata where
  total_questions : Nat
  questions_checked : Nat
  completion_percentage : ℚ
  checklist_percentages : Criterion → ℚ

/-- The statistics block computed at persist time (lines 408-441):
`total_questions`, `questions_checked`, `completion_percentage` (guarded
against `total == 0`, rounded to 1 decimal) and the per-criterion
`checklist_percentages` (guarded, rounded to 2 decimals). -/
def computeMetadata (qids : List String) (cl : Checklist) : Metadata :=
  let total := qids.length
  let checked := checkedCount cl qids
  let counts := computeCounts cl qids
  { total_questions := total
    questions_checked := checked
    completion_percentage :=
      if total = 0 then 0 else round1 ((checked : ℚ) / total * 100)
    checklist_percentages := fun c =>
      if total = 0 then 0 else round2 ((counts c : ℚ) / total * 100) }

/-- One snapshot written to the companion file by `save_progress`
(lines 428-442): `checklist`, `comments`, `current_index`, `metadata`.
The wall-clock `timestamp` field is not modelled. -/
structure ProgressData where
  checklist : Checklist
  comments : Comments
  current_index : Int
  metadata : Metadata

/-- `save_progress` (lines 402-457): the snapshot serialized from the
current state (the in-memory maps are the sole source of truth). -/
def save_progress (st : AppState) : ProgressData :=
  { checklist := st.checklist
    comments := st.comments
    current_index := (st.current_index : Int)
    metadata :=
      computeMetadata (st.segments.map QuestionRecord.question_id)
        st.checklist }

/-- `auto_save_progress` (lines 397-400): nothing is written unless a
document is loaded and has records; otherwise exactly one silent
snapshot. -/
def auto_save_progress (st : AppState) : List ProgressData :=
  if st.xml_file_path.isNone || st.segments.isEmpty then []
  else [save_progress st]

/-- `load_question` (lines 282-357), restricted to its state effects: the
guard returns immediately on an empty record list or an out-of-range
index; otherwise `auto_save_progress` runs first (persisting the state of
the record being left) and only then is `self.current_index` set to the
new index.  The remaining body only repaints widgets.  Returns the new
state and the snapshots written. -/
def load_question (st : AppState) (index : Int) :
    AppState × List ProgressData :=
  if st.segments.isEmpty || index < 0 ||
      (st.segments.length : Int) ≤ index then (st, [])
  else ({ st with current_index := index.toNat }, auto_save_progress st)

/-- `next_question` (lines 363-365). -/
def next_question (st : AppState) : AppState × List ProgressData :=
  if st.current_index < st.segments.length - 1 then
    load_question st ((st.current_index : Int) + 1)
  else (st, [])

/-- Python's `str.strip()`: drop leading and trailing whitespace
characters (whitespace per `Char.isWhitespace`). -/
def pyStrip (s : String) : String :=
  String.mk
    (((s.data.dropWhile Char.isWhitespace).reverse.dropWhile
        Char.isWhitespace).reverse)

/-- `save_current_comment` (lines 377-384): no-op on an empty record
list; otherwise the widget text is stripped of leading/trailing
whitespace and stored under the current record's question id.  When
`current_index` is out of range Python raises `IndexError` before any
state is mutated, so the state is likewise returned unchanged. -/
def save_current_comment (st : AppState) (text : String) : AppState :=
  if st.segments.isEmpty then st
  else
    match st.segments.get? st.current_index with
    | none => st
    | some r =>
      { st with comments := assocSet r.question_id (pyStrip text) st.comments }

/-- The recognized top-level keys of a structurally well-formed companion
JSON object, each optional (lines 480-493). -/
structure CompanionJSON where
  checklist : Option Checklist
  comments : Option Comments
  current_index : Option Int
deriving DecidableEq

/-- What `try_load_progress` finds at the companion path: a file whose
JSON fails to parse, or a parsed well-formed object. -/
inductive CompanionContent where
  | corrupt
  | parsed (data : CompanionJSON)
deriving DecidableEq

/-- `try_load_progress` (lines 465-502): `none` models a missing
companion file.  A missing file or corrupt JSON leads to
`load_question(0)` with the in-memory maps untouched; a parsed file
overwrites `self.checklist` / `self.comments` from the keys it has and
resumes at `current_index` when that lies in `[0, len(segments))`, at `0`
otherwise.  Returns the new state and the snapshots written (the
`load_question` calls auto-save). -/
def try_load_progress (st : AppState) (file : Option CompanionContent) :
    AppState × List ProgressData :=
  match st.xml_file_path with
  | none => (st, [])
  | some _ =>
    match file with
    | none => load_question st 0
    | some .corrupt => load_question st 0
    | some (.parsed d) =>
      let st1 :=
        match d.checklist with
        | some cl => { st with checklist := cl }
        | none => st
      let st2 :=
        match d.comments with
        | some cm => { st1 with comments := cm }
        | none => st1
      match d.current_index with
      | some idx =>
        if 0 ≤ idx ∧ idx < (st2.segments.length : Int) then
          load_question st2 idx
        else load_question st2 0
      | none => load_question st2 0

/-- Dialogs `load_xml` can surface: the single error box of the `except`
branch (line 279) and the no-valid-questions warning (line 273). -/
inductive UIError where
  | parseError
  | noData
deriving DecidableEq, Repr

/-- The outcome of `ET.parse` on the chosen file: failure (malformed
markup or unreadable file) or a parsed document. -/
inductive ParseResult where
  | failure
  | success (doc : XMLDoc)

/-- `CompactXMLValidator.load_xml` (lines 209-280) at the session level.
On parse failure the `except` branch runs before `self.xml_file_path` or
`self.segments` is assigned, so the state is returned unchanged with one
`parseError` surfaced.  On success the path and extracted records are
installed; with at least one record `try_load_progress` runs, otherwise a
`noData` warning is shown. -/
def load_xml_app (st : AppState) (path : String) (pr : ParseResult)
    (companion : Option CompanionContent) :
    AppState × List ProgressData × List UIError :=
  match pr with
  | .failure => (st, [], [.parseError])
  | .success doc =>
    let recs := load_xml doc
    let st1 := { st with xml_file_path := some path, segments := recs }
    if recs.isEmpty then (st1, [], [.noData])
    else
      let hydrated := try_load_progress st1 companion
      (hydrated.1, hydrated.2, [])

/-- A fresh store holding a given record list: empty maps, cursor `0`,
document path installed (the state right before hydration in a new
session). -/
def freshStore (segs : List QuestionRecord) (p : String) : AppState :=
  { segments := segs
    current_index := 0
    checklist := []
    comments := []
    xml_file_path := some p }

/-- Reading back a snapshot written by `save_progress`: the companion
JSON object carries exactly the `checklist`, `comments` and
`current_index` keys that were serialized (the JSON encode/decode pair is
assumed faithful). -/
def persistedCompanion (pd : ProgressData) : CompanionJSON :=
  { checklist := some pd.checklist
    comments := some pd.comments
    current_index := some pd.current_index }

/-- Spec-side formulation of `answeredCount`: the number of document
question ids present in `judgments` with at least one criterion true. -/
def specAnsweredCount (cl : Checklist) (qids : List String) : Nat :=
  qids.countP
    (fun qid =>
      match List.lookup qid cl with
      | some e => anyChecked e
      | none => false)

/-- Spec-side formulation: the number of document question ids whose
stored judgment has criterion `c` true. -/
def specCriterionCount (cl : Checklist) (qids : List String)
    (c : Criterion) : Nat :=
  qids.countP
    (fun qid =>
      match List.lookup qid cl with
      | some e => e.get c
      | none => false)

/-- Spec-side formulation of `perCriterionPercentage[c]`:
`100 * count(ids where judgments[id][c] is true) / total`, rounded to 2
decimal places, `0` when `total == 0`. -/
def specPerCriterionPercentage (cl : Checklist) (qids : List String)
    (c : Criterion) : ℚ :=
  if qids.length = 0 then 0
  else round2 (100 * (specCriterionCount cl qids c : ℚ) / qids.length)

/-- A checklist entry with only `unclear_answer` set. -/
def onlyUnclear : ChecklistEntry :=
  { single_sentence := false
    multiple_sentences := false
    low_quality_distractors := false
    unsuitable_paragraph := false
    unclear_answer := true
    outside_knowledge := false }

/-- A sample emitted record used in concrete states. -/
def sampleRecord : QuestionRecord :=
  { segment_id := "s1"
    document_title := "Unknown"
    segment_title := ""
    segment_text := "some passage"
    question_id := "q1"
    question_type := ""
    question_text := "why"
    choices := [{ id := "a", text := "A" }]
    correct_choice := "a" }

/-- A second sample record with a distinct question id. -/
def sampleRecord2 : QuestionRecord :=
  { sampleRecord with question_id := "q2" }

/-- A parsed document whose single question carries a `Choices` element
with no valid `Choice` children. -/
def c1Doc : XMLDoc :=
  { segments :=
      [{ id := "s1"
         documentTitle := none
         segmentTitle := none
         segmentText := some "some passage"
         qa :=
           some
             [{ id := "q1"
                questionType := none
                questionText := some "why"
                choices := some []
                correctChoice := none }] }] }

/-- A parsed document with one question holding one non-empty and one
empty choice. -/
def c1WitnessDoc : XMLDoc :=
  { segments :=
      [{ id := "s1"
         documentTitle := none
         segmentTitle := none
         segmentText := some "some passage"
         qa :=
           some
             [{ id := "q1"
                questionType := none
                questionText := some "why"
                choices :=
                  some [{ id := "a", text := "A" }, { id := "b", text := "" }]
                correctChoice := some "a" }] }] }

/-- The record `load_xml` emits from `c1WitnessDoc`. -/
def c1WitnessRecord : QuestionRecord :=
  { segment_id := "s1"
    document_title := "Unknown"
    segment_title := ""
    segment_text := "some passage"
    question_id := "q1"
    question_type := ""
    question_text := "why"
    choices := [{ id := "a", text := "A" }]
    correct_choice := "a" }

/-- A session state with one loaded record and a non-empty checklist map:
reachable by judging a question in one document and then opening another
(neither `load_xml` nor `try_load_progress` ever clears the maps). -/
def priorState : AppState :=
  { segments := [sampleRecord]
    current_index := 0
    checklist := [("q1", onlyUnclear)]
    comments := []
    xml_file_path := some "data.xml" }

/-- A session state with two records, cursor on the first. -/
def twoRecordState : AppState :=
  { segments := [sampleRecord, sampleRecord2]
    current_index := 0
    checklist := [("q1", onlyUnclear)]
    comments := [("q1", "seen")]
    xml_file_path := some "data.xml" }

/-- The state of a session with no document loaded. -/
def emptyState : AppState :=
  { segments := []
    current_index := 0
    checklist := []
    comments := []
    xml_file_path := none }

/-- Ten document question ids. -/
def tenQids : List String :=
  ["q0", "q1", "q2", "q3", "q4", "q5", "q6", "q7", "q8", "q9"]

/-- A checklist map judging exactly three of the ten questions, each with
only `unclear_answer` set. -/
def threeUnclear : Checklist :=
  [("q0", onlyUnclear), ("q1", onlyUnclear), ("q2", onlyUnclear)]

/-- A companion object whose stored cursor is out of range for a
one-record document. -/
def outOfRangeCompanion : CompanionJSON :=
  { checklist := none
    comments := none
    current_index := some 5 }

/-! ## Helper lemmas -/

/-- Looking up a key right after a dict assignment yields the assigned
value. -/
theorem lookup_assocSet {α : Type} (k : String) (v : α) :
    ∀ m : List (String × α), List.lookup k (assocSet k v m) = some v := by
  intro m
  induction m with
  | nil => simp [assocSet, List.lookup]
  | cons hd tl ih =>
    obtain ⟨k2, v2⟩ := hd
    by_cases h : k2 = k
    · subst h
      simp [assocSet, List.lookup]
    · rw [assocSet, if_neg h, List.lookup,
        show (k == k2) = false from by simpa using Ne.symm h]
      exact ih

/-- The state part of `load_question` never touches the maps: only the
cursor can change. -/
theorem load_question_maps (st : AppState) (index : Int) :
    ((load_question st index).1).checklist = st.checklist ∧
    ((load_question st index).1).comments = st.comments ∧
    ((load_question st index).1).segments = st.segments := by
  unfold load_question
  split <;> simp

/-- `load_question` on an in-range index over a matching record list sets
the cursor to that index. -/
theorem load_question_cursor (st : AppState) (idx : Int)
    (h0 : st.segments ≠ []) (h1 : 0 ≤ idx)
    (h2 : idx < (st.segments.length : Int)) :
    ((load_question st idx).1).current_index = idx.toNat := by
  unfold load_question
  have hc : ¬(st.segments.isEmpty || decide (idx < 0) ||
      decide ((st.segments.length : Int) ≤ idx)) = true := by
    simp only [Bool.or_eq_true, List.isEmpty_iff, decide_eq_true_eq]
    push_neg
    exact ⟨⟨h0, by omega⟩, by omega⟩
  rw [if_neg hc]

/-! ## Claim theorems -/

/-- C10: selecting a record with an empty record list, or with an index
outside `[0, number of records)`, is a complete no-op: `load_question`
returns the state unchanged and writes no snapshot. -/
theorem c10_load_question_out_of_range_noop (st : AppState) (index : Int)
    (h : st.segments = [] ∨ index < 0 ∨
      (st.segments.length : Int) ≤ index) :
    load_question st index = (st, []) := by
  unfold load_question
  rcases h with h | h | h
  · simp [h]
  · simp [h]
  · simp [h]

/-- Witness for C10 at a concrete input: with no records loaded,
selecting index 0 changes nothing and persists nothing. -/
theorem c10_witness : load_question emptyState 0 = (emptyState, []) :=
  c10_load_question_out_of_range_noop emptyState 0 (Or.inl rfl)

/-- C6: with a total question count of 0, the statistics computed at
persist time divide by nothing and report 0 for the completion
percentage and for every per-criterion percentage. -/
theorem c6_zero_total_stats (st : AppState) (h : st.segments = []) :
    (save_progress st).metadata.completion_percentage = 0 ∧
    ∀ c, (save_progress st).metadata.checklist_percentages c = 0 := by
  constructor
  · simp [save_progress, computeMetadata, h]
  · intro c
    simp [save_progress, computeMetadata, h]

/-- Witness for C6 at a concrete input: the empty session reports a zero
completion percentage and a zero `unclear_answer` percentage. -/
theorem c6_witness :
    (save_progress emptyState).metadata.completion_percentage = 0 ∧
    (save_progress emptyState).metadata.checklist_percentages
      Criterion.unclear_answer = 0 :=
  ⟨(c6_zero_total_stats emptyState rfl).1,
    (c6_zero_total_stats emptyState rfl).2 Criterion.unclear_answer⟩

/-- C8: a parse failure of the source document surfaces exactly one
`parseError` and leaves the session state — record list, cursor, maps and
document path — untouched; a successfully parsed document never surfaces
a `parseError`, missing optional fields having been defaulted by the
total extraction pass. -/
theorem c8_parse_failure_policy (st : AppState) (path : String)
    (companion : Option CompanionContent) :
    load_xml_app st path ParseResult.failure companion =
      (st, [], [UIError.parseError]) ∧
    ∀ doc : XMLDoc,
      UIError.parseError ∉
        (load_xml_app st path (ParseResult.success doc) companion).2.2 := by
  refine ⟨rfl, ?_⟩
  intro doc
  simp only [load_xml_app]
  split
  · simp
  · simp

/-- C2 counterexample: a session state with a non-empty checklist map
(reached by judging a question in one document and then opening another)
still has a non-empty checklist map after hydrating with a missing
companion file, and likewise with a corrupt one — the maps are not
reinitialized to empty. -/
theorem c2_counterexample :
    ((try_load_progress priorState none).1).checklist ≠ [] ∧
    ((try_load_progress priorState
        (some CompanionContent.corrupt)).1).checklist ≠ [] := by
  decide

/-- C2 (amended): with a missing companion file or corrupt companion
JSON, `try_load_progress` propagates no error and returns with the
judgment and comment maps exactly as they were — in particular they
remain empty in a fresh session. -/
theorem c2_hydrate_fallback (st : AppState) (file : Option CompanionContent)
    (h : file = none ∨ file = some CompanionContent.corrupt) :
    ((try_load_progress st file).1).checklist = st.checklist ∧
    ((try_load_progress st file).1).comments = st.comments := by
  have key : ∀ st2 : AppState,
      ((load_question st2 0).1).checklist = st2.checklist ∧
      ((load_question st2 0).1).comments = st2.comments :=
    fun st2 => ⟨(load_question_maps st2 0).1, (load_question_maps st2 0).2.1⟩
  rcases h with rfl | rfl <;>
    · unfold try_load_progress
      cases hx : st.xml_file_path
      · exact ⟨rfl, rfl⟩
      · exact key st

/-- Witness for C2 at a concrete input: hydrating a fresh store (empty
maps) with a missing companion file leaves both maps empty. -/
theorem c2_witness :
    ((try_load_progress (freshStore [sampleRecord] "data.xml")
        none).1).checklist =
      (freshStore [sampleRecord] "data.xml").checklist ∧
    ((try_load_progress (freshStore [sampleRecord] "data.xml")
        none).1).comments =
      (freshStore [sampleRecord] "data.xml").comments :=
  c2_hydrate_fallback (freshStore [sampleRecord] "data.xml") none (Or.inl rfl)

/-- C5: navigating from record `i` to record `i+1` triggers exactly one
synchronous persist, and the persisted snapshot is the state as of
leaving record `i` — cursor `i` and the judgment/comment maps as they
stood before the navigation — while the new state only advances the
cursor. -/
theorem c5_next_single_persist (st : AppState) (p : String)
    (h1 : st.xml_file_path = some p)
    (h2 : st.current_index + 1 < st.segments.length) :
    next_question st =
      ({ st with current_index := st.current_index + 1 },
        [save_progress st]) ∧
    (save_progress st).current_index = (st.current_index : Int) ∧
    (save_progress st).checklist = st.checklist ∧
    (save_progress st).comments = st.comments := by
  refine ⟨?_, rfl, rfl, rfl⟩
  have h0 : st.segments ≠ [] := by
    intro hc
    rw [hc] at h2
    simp at h2
  unfold next_question
  rw [if_pos (by omega : st.current_index < st.segments.length - 1)]
  unfold load_question
  have hc : ¬(st.segments.isEmpty ||
      decide ((st.current_index : Int) + 1 < 0) ||
      decide ((st.segments.length : Int) ≤ (st.current_index : Int) + 1))
      = true := by
    simp only [Bool.or_eq_true, List.isEmpty_iff, decide_eq_true_eq]
    push_neg
    exact ⟨⟨h0, by omega⟩, by omega⟩
  rw [if_neg hc]
  have htn : ((st.current_index : Int) + 1).toNat = st.current_index + 1 := by
    omega
  rw [htn]
  have hsave : auto_save_progress st = [save_progress st] := by
    unfold auto_save_progress
    rw [if_neg]
    simp [h1, List.isEmpty_iff, h0]
  rw [hsave]

/-- Witness for C5 at a concrete input: advancing from the first of two
records persists exactly one snapshot, carrying the pre-navigation
state. -/
theorem c5_witness :
    next_question twoRecordState =
      ({ twoRecordState with
          current_index := twoRecordState.current_index + 1 },
        [save_progress twoRecordState]) ∧
    (save_progress twoRecordState).current_index =
      (twoRecordState.current_index : Int) :=
  ⟨(c5_next_single_persist twoRecordState "data.xml" rfl (by decide)).1,
    (c5_next_single_persist twoRecordState "data.xml" rfl (by decide)).2.1⟩

/-- C7: when hydrating a companion file, the stored cursor is used as the
resume index when it lies in `[0, recordCount)` and is clamped to 0
otherwise, including when the `current_index` key is missing. -/
theorem c7_cursor_clamp (st : AppState) (p : String) (d : CompanionJSON)
    (h1 : st.xml_file_path = some p) (h2 : st.segments ≠ []) :
    ((try_load_progress st
        (some (CompanionContent.parsed d))).1).current_index =
      (match d.current_index with
       | some k =>
         if 0 ≤ k ∧ k < (st.segments.length : Int) then k.toNat else 0
       | none => 0) := by
  have hlen : 0 < st.segments.length := List.length_pos.mpr h2
  obtain ⟨dcl, dcm, didx⟩ := d
  have key : ∀ st2 : AppState, st2.segments = st.segments →
      ((load_question st2 0).1).current_index = 0 := by
    intro st2 hseg
    have h := load_question_cursor st2 0
      (by rw [hseg]; exact h2) (by norm_num)
      (by rw [hseg]; exact_mod_cast hlen)
    simpa using h
  unfold try_load_progress
  rw [h1]
  cases didx with
  | none => cases dcl <;> cases dcm <;> exact key _ rfl
  | some k =>
    by_cases hk : 0 ≤ k ∧ k < (st.segments.length : Int)
    · cases dcl <;> cases dcm <;>
        · simp only []
          rw [if_pos hk, if_pos hk]
          exact load_question_cursor _ k h2 hk.1 hk.2
    · cases dcl <;> cases dcm <;>
        · simp only []
          rw [if_neg hk, if_neg hk]
          exact key _ rfl

/-- Witness for C7 at a concrete input: a stored cursor of 5 over a
one-record document resumes at 0. -/
theorem c7_witness :
    AppState.current_index
      ((try_load_progress priorState
        (some (CompanionContent.parsed outOfRangeCompanion))).1) = 0 := by
  have h := c7_cursor_clamp priorState "data.xml" outOfRangeCompanion
    rfl (by decide)
  simpa using h

/-- C3: for any in-memory state whose cursor is in range — as it is for
every state hydrated from a well-formed companion file — persisting and
then hydrating the persisted snapshot in a fresh store reproduces the
judgments map, the comments map, and the cursor exactly. -/
theorem c3_persist_hydrate_roundtrip (st : AppState) (p : String)
    (h : st.current_index < st.segments.length) :
    (((try_load_progress (freshStore st.segments p)
        (some (CompanionContent.parsed
          (persistedCompanion (save_progress st))))).1).checklist
      = st.checklist) ∧
    (((try_load_progress (freshStore st.segments p)
        (some (CompanionContent.parsed
          (persistedCompanion (save_progress st))))).1).comments
      = st.comments) ∧
    (((try_load_progress (freshStore st.segments p)
        (some (CompanionContent.parsed
          (persistedCompanion (save_progress st))))).1).current_index
      = st.current_index) := by
  have h0 : st.segments ≠ [] := by
    intro hc
    rw [hc] at h
    simp at h
  unfold try_load_progress freshStore persistedCompanion save_progress
  simp only []
  rw [if_pos ⟨Int.natCast_nonneg st.current_index,
    by exact_mod_cast h⟩]
  refine ⟨(load_question_maps _ _).1, (load_question_maps _ _).2.1, ?_⟩
  have hcur := load_question_cursor
    { segments := st.segments
      current_index := 0
      checklist := st.checklist
      comments := st.comments
      xml_file_path := some p }
    (st.current_index : Int) h0 (Int.natCast_nonneg st.current_index)
    (by exact_mod_cast h)
  simpa using hcur

/-- Witness for C3 at a concrete input: persisting the one-record session
and hydrating its snapshot into a fresh store reproduces the maps and the
cursor. -/
theorem c3_witness :
    (((try_load_progress (freshStore priorState.segments "data.xml")
        (some (CompanionContent.parsed
          (persistedCompanion (save_progress priorState))))).1).checklist
      = priorState.checklist) ∧
    (((try_load_progress (freshStore priorState.segments "data.xml")
        (some (CompanionContent.parsed
          (persistedCompanion (save_progress priorState))))).1).comments
      = priorState.comments) ∧
    (((try_load_progress (freshStore priorState.segments "data.xml")
        (some (CompanionContent.parsed
          (persistedCompanion (save_progress priorState))))).1).current_index
      = priorState.current_index) :=
  c3_persist_hydrate_roundtrip priorState "data.xml" (by decide)

/-- C9: recording a comment trims leading and trailing whitespace and
stores the result under the current record's question id, replacing any
prior entry; the key is present afterwards even when the trimmed string
is empty, so key presence distinguishes a cleared comment from a
never-visited question. -/
theorem c9_comment_trim_store (st : AppState) (text : String)
    (r : QuestionRecord) (h1 : st.segments ≠ [])
    (h2 : st.segments.get? st.current_index = some r) :
    (save_current_comment st text).comments =
      assocSet r.question_id (pyStrip text) st.comments ∧
    List.lookup r.question_id (save_current_comment st text).comments =
      some (pyStrip text) := by
  have hmain : (save_current_comment st text).comments =
      assocSet r.question_id (pyStrip text) st.comments := by
    unfold save_current_comment
    rw [if_neg (by simp [List.isEmpty_iff, h1]), h2]
  refine ⟨hmain, ?_⟩
  rw [hmain]
  exact lookup_assocSet _ _ _

/-- Witness for C9 at a concrete input: a comment that is all whitespace
is stored as the empty string, with the key present. -/
theorem c9_witness :
    List.lookup "q1" (save_current_comment priorState "   ").comments =
      some "" := by
  have h := (c9_comment_trim_store priorState "   " sampleRecord
    (by decide) rfl).2
  have e1 : sampleRecord.question_id = "q1" := rfl
  have e2 : pyStrip "   " = "" := by decide
  rw [e1, e2] at h
  exact h

/-- C1 counterexample: a parsed document whose question has a `Choices`
element with no valid `Choice` children is still emitted — with an empty
`choices` sequence — so not every emitted record has non-empty
choices. -/
theorem c1_counterexample :
    (load_xml c1Doc).map QuestionRecord.choices = [[]] ∧
    load_xml c1Doc ≠ [] := by
  decide

/-- C1 (amended): every emitted record has non-empty `segment_text` and
`question_text`, and every entry of its `choices` sequence has non-empty
text; the `choices` sequence itself may be empty (a question is skipped
only when the `Choices` element is absent entirely, not when it is
present but holds no non-empty choice). -/
theorem c1_record_quality (doc : XMLDoc) (r : QuestionRecord)
    (h : r ∈ load_xml doc) :
    r.segment_text ≠ "" ∧ r.question_text ≠ "" ∧
    ∀ c ∈ r.choices, c.text ≠ "" := by
  unfold load_xml at h
  rw [List.mem_flatMap] at h
  obtain ⟨seg, hseg, hr⟩ := h
  unfold loadSegment at hr
  cases hst : seg.segmentText with
  | none => rw [hst] at hr; simp at hr
  | some stx =>
    rw [hst] at hr
    simp only [] at hr
    by_cases hempty : stx = ""
    · rw [if_pos hempty] at hr; simp at hr
    · rw [if_neg hempty] at hr
      cases hqa : seg.qa with
      | none => rw [hqa] at hr; simp at hr
      | some qs =>
        rw [hqa] at hr
        simp only [] at hr
        rw [List.mem_filterMap] at hr
        obtain ⟨q, hq, hex⟩ := hr
        unfold extractQuestion at hex
        cases hqt : q.questionText with
        | none => rw [hqt] at hex; simp at hex
        | some qt =>
          rw [hqt] at hex
          simp only [] at hex
          by_cases hqe : qt = ""
          · rw [if_pos hqe] at hex; simp at hex
          · rw [if_neg hqe] at hex
            cases hch : q.choices with
            | none => rw [hch] at hex; simp at hex
            | some ces =>
              rw [hch] at hex
              simp only [] at hex
              have hrec := Option.some.inj hex
              subst hrec
              refine ⟨hempty, hqe, ?_⟩
              intro c hc
              rw [List.mem_map] at hc
              obtain ⟨ce, hce, hceq⟩ := hc
              rw [List.mem_filter] at hce
              have hnc : ce.text ≠ "" := by simpa using hce.2
              rw [← hceq]
              simpa using hnc

/-- Witness for C1 at a concrete input: the record extracted from
`c1WitnessDoc` (which drops the empty choice) satisfies the amended
invariant. -/
theorem c1_witness :
    c1WitnessRecord ∈ load_xml c1WitnessDoc ∧
    (c1WitnessRecord.segment_text ≠ "" ∧
     c1WitnessRecord.question_text ≠ "" ∧
     ∀ c ∈ c1WitnessRecord.choices, c.text ≠ "") :=
  ⟨by decide, c1_record_quality c1WitnessDoc c1WitnessRecord (by decide)⟩

/-- The accumulator-passing counts loop of `save_progress` computes, for
each criterion, the accumulator plus the number of question ids whose
stored judgment marks that criterion true. -/
theorem computeCounts_go_countP (cl : Checklist) (c : Criterion) :
    ∀ (qids : List String) (acc : Criterion → Nat),
      (qids.foldl
        (fun acc qid =>
          match List.lookup qid cl with
          | some e => updateCounts acc e
          | none => acc) acc) c =
        acc c + specCriterionCount cl qids c := by
  intro qids
  induction qids with
  | nil =>
    intro acc
    simp [specCriterionCount]
  | cons q qs ih =>
    intro acc
    rw [List.foldl_cons]
    unfold specCriterionCount
    rw [List.countP_cons]
    cases hl : List.lookup q cl with
    | none =>
      simp only [hl]
      rw [ih acc]
      unfold specCriterionCount
      simp
    | some e =>
      simp only [hl]
      rw [ih (updateCounts acc e)]
      unfold updateCounts specCriterionCount
      by_cases he : e.get c = true
      · rw [if_pos he, if_pos he]
        omega
      · rw [if_neg he, if_neg he]
        omega

/-- The counts loop agrees with the count-of-ids formulation. -/
theorem computeCounts_eq_spec (cl : Checklist) (qids : List String)
    (c : Criterion) :
    computeCounts cl qids c = specCriterionCount cl qids c := by
  unfold computeCounts
  rw [computeCounts_go_countP]
  omega

/-- C4: the checklist statistics satisfy their spec formulation —
`questions_checked` is the number of document question ids whose stored
judgment has at least one criterion true, and each per-criterion
percentage is `100 * count / total` rounded to 2 decimal places (0 for an
empty document); concretely, with 10 questions of which exactly 3 have
only `unclear_answer` set, the `unclear_answer` percentage is 30, every
other criterion reports 0, and `questions_checked` is 3. -/
theorem c4_checklist_stats :
    (∀ (qids : List String) (cl : Checklist),
      (computeMetadata qids cl).questions_checked =
        specAnsweredCount cl qids ∧
      ∀ c, (computeMetadata qids cl).checklist_percentages c =
        specPerCriterionPercentage cl qids c) ∧
    ((computeMetadata tenQids threeUnclear).checklist_percentages
        Criterion.unclear_answer = 30 ∧
      (computeMetadata tenQids threeUnclear).checklist_percentages
        Criterion.single_sentence = 0 ∧
      (computeMetadata tenQids threeUnclear).checklist_percentages
        Criterion.multiple_sentences = 0 ∧
      (computeMetadata tenQids threeUnclear).checklist_percentages
        Criterion.low_quality_distractors = 0 ∧
      (computeMetadata tenQids threeUnclear).checklist_percentages
        Criterion.unsuitable_paragraph = 0 ∧
      (computeMetadata tenQids threeUnclear).checklist_percentages
        Criterion.outside_knowledge = 0 ∧
      (computeMetadata tenQids threeUnclear).questions_checked = 3) := by
  have hgen : ∀ (qids : List String) (cl : Checklist) (c : Criterion),
      (computeMetadata qids cl).checklist_percentages c =
        specPerCriterionPercentage cl qids c := by
    intro qids cl c
    unfold computeMetadata specPerCriterionPercentage
    simp only []
    by_cases h : qids.length = 0
    · rw [if_pos h, if_pos h]
    · rw [if_neg h, if_neg h, computeCounts_eq_spec]
      unfold round2
      have harith : ((specCriterionCount cl qids c : ℚ) /
            (qids.length : ℚ) * 100) =
          100 * (specCriterionCount cl qids c : ℚ) / (qids.length : ℚ) := by
        ring
      rw [harith]
  have hcount3 : computeCounts threeUnclear tenQids
      Criterion.unclear_answer = 3 := by decide
  have hcount0 : ∀ c, c ≠ Criterion.unclear_answer →
      computeCounts threeUnclear tenQids c = 0 := by
    intro c hc
    cases c <;> first
      | exact absurd rfl hc
      | decide
  have hconc : ∀ c : Criterion,
      (computeMetadata tenQids threeUnclear).checklist_percentages c =
        (if c = Criterion.unclear_answer then (30 : ℚ) else 0) := by
    intro c
    unfold computeMetadata
    simp only []
    rw [if_neg (by decide : ¬tenQids.length = 0)]
    by_cases hc : c = Criterion.unclear_answer
    · subst hc
      rw [hcount3, if_pos rfl]
      have hlen : ((tenQids.length : ℚ)) = 10 := by norm_num [tenQids]
      rw [hlen]
      norm_num [round2, round_eq]
    · rw [hcount0 c hc, if_neg hc]
      have hlen : ((tenQids.length : ℚ)) = 10 := by norm_num [tenQids]
      rw [hlen]
      norm_num [round2, round_eq]
  refine ⟨fun qids cl => ⟨rfl, hgen qids cl⟩, ?_, ?_, ?_, ?_, ?_, ?_, ?_⟩
  · simpa using hconc Criterion.unclear_answer
  · simpa using hconc Criterion.single_sentence
  · simpa using hconc Criterion.multiple_sentences
  · simpa using hconc Criterion.low_quality_distractors
  · simpa using hconc Criterion.unsuitable_paragraph
  · simpa using hconc Criterion.outside_knowledge
  · decide

/-- Witness for C8 at a concrete input: a parse failure over the empty
session surfaces one `parseError` and changes nothing, and a successful
parse of `c1Doc` surfaces none. -/
theorem c8_witness :
    load_xml_app emptyState "doc.xml" ParseResult.failure none =
      (emptyState, [], [UIError.parseError]) ∧
    UIError.parseError ∉
      (load_xml_app emptyState "doc.xml"
        (ParseResult.success c1Doc) none).2.2 :=
  ⟨(c8_parse_failure_policy emptyState "doc.xml" none).1,
    (c8_parse_failure_policy emptyState "doc.xml" none).2 c1Doc⟩
